import Mathlib

/-!
Verification development for the Repooreto report bot (src/bot.py, v5.1).

The Python program keeps three module-level dictionaries (user_sessions,
queue_positions, active_jobs), an asyncio.Queue of submitted jobs, and a
worker loop guarded by an asyncio.Semaphore of size MAX_CONCURRENT.  The
definitions below are a shallow embedding of that code: dictionaries become
ordered association lists (Python dicts preserve insertion order), the
callbacks become pure functions on a BotState record, the worker pool
becomes a labelled transition system, and the external LLM / renderer /
transport calls become explicit oracle parameters.
-/

namespace Repooreto

/-- Python ordered-dict assignment, d[k] = v: overwrite the entry in place
if the key is present, otherwise append a new entry at the end. -/
def setKey {β : Type} : List (Nat × β) → Nat → β → List (Nat × β)
| [], k, v => [(k, v)]
| p :: t, k, v => if p.1 = k then (k, v) :: t else p :: setKey t k v

/-- Python dict removal, d.pop(k, None): drop the entry with the given key. -/
def eraseKey {β : Type} : List (Nat × β) → Nat → List (Nat × β)
| [], _ => []
| p :: t, k => if p.1 = k then eraseKey t k else p :: eraseKey t k

/-- The loop in process_one (bot.py lines 56-58): iterate over a snapshot of
the recorded queue positions and decrement each entry that is strictly
positive by one; entries already at zero are left unchanged. -/
def decPositive (m : List (Nat × Nat)) : List (Nat × Nat) :=
  m.map (fun p => if 0 < p.2 then (p.1, p.2 - 1) else p)

theorem lookup_setKey {β : Type} (m : List (Nat × β)) (k : Nat) (v : β) :
    List.lookup k (setKey m k v) = some v := by
  induction m with
  | nil => simp [setKey, List.lookup]
  | cons p t ih =>
    by_cases h : p.1 = k
    · simp [setKey, h, List.lookup]
    · have hk : (k == p.1) = false := by
        simp [beq_iff_eq]
        exact fun hkp => h hkp.symm
      simp [setKey, h, List.lookup, hk, ih]

theorem lookup_eraseKey {β : Type} (m : List (Nat × β)) (k : Nat) :
    List.lookup k (eraseKey m k) = none := by
  induction m with
  | nil => simp [eraseKey, List.lookup]
  | cons p t ih =>
    by_cases h : p.1 = k
    · simp [eraseKey, h, ih]
    · have hk : (k == p.1) = false := by
        simp [beq_iff_eq]
        exact fun hkp => h hkp.symm
      simp [eraseKey, h, List.lookup, hk, ih]

/-- A session dict from user_sessions, with one field per key the code ever
stores.  Keys that the code reads with .get and a default, or that may be
absent, are Option-typed (none = key absent). -/
structure Session where
  topic : String := ""
  state : String := ""
  language : Option String := none
  depth : Option String := none
  dynamic_questions : List String := []
  answers : List String := []
  custom_title : Option String := none
  template : Option String := none
  custom_mode : Option Bool := none
  comparison_query : Option String := none
  custom_font_size_key : Option String := none
  custom_font_key : Option String := none
  custom_color_key : Option String := none
  custom_line_height : Option String := none
  custom_page_margin : Option String := none
  custom_header_style : Option String := none
  custom_show_header_footer : Option String := none
deriving DecidableEq

/-- The session created at bot.py line 1035 for a fresh topic:
user_sessions[user_id] = a dict holding only topic and state choosing_lang. -/
def newSession (topic : String) : Session :=
  { topic := topic, state := "choosing_lang" }

/-- The mutable module-level state of bot.py: user_sessions, queue_positions,
active_jobs, and the contents of report_queue (each queued item carries the
submitting client id and the snapshot passed to report_queue.put). -/
structure BotState where
  sessions : List (Nat × Session) := []
  positions : List (Nat × Nat) := []
  queueItems : List (Nat × Session) := []
  activeJobs : List Nat := []
deriving DecidableEq

def emptyBot : BotState := {}

/-- MAX_CONCURRENT at bot.py line 47. -/
def MAX_CONCURRENT : Nat := 2

/-- asyncio.Queue() is created in post_init with no maxsize argument;
maxsize 0 means the queue is unbounded and put never rejects. -/
def queueMaxsize : Nat := 0

/-- Whitespace as stripped by the Python str.strip() call on incoming text
(space, tab, newline, carriage return, vertical tab, form feed). -/
def isPySpace (c : Char) : Bool :=
  c.toNat = 32 || c.toNat = 9 || c.toNat = 10 ||
  c.toNat = 13 || c.toNat = 11 || c.toNat = 12

/-- Python str.strip(): remove leading and trailing whitespace. -/
def pyStrip (s : String) : String :=
  String.mk (((s.data.dropWhile isPySpace).reverse.dropWhile isPySpace).reverse)

/-- The submission sequence shared by template_callback, comp_no_callback and
the entering_comparison branch of handle_message: compute
pos = report_queue.qsize() + 1, record queue_positions[user_id] = pos, and
put (user_id, session.copy(), message_id) on report_queue. -/
def submitJob (st : BotState) (uid : Nat) (s : Session) : BotState :=
  { st with
    positions := setKey st.positions uid (st.queueItems.length + 1),
    queueItems := st.queueItems ++ [(uid, s)] }

/-- handle_message (bot.py lines 976-1040) restricted to its effect on the
bot state.  The incoming text is stripped first; with a live session the
branches for answering, choosing_title and entering_comparison mutate the
session (other states only send a guidance message); with no session the
topic gate admits stripped text of length 5..250 and otherwise replies
without touching the store. -/
def handle_message (st : BotState) (uid : Nat) (raw : String) : BotState :=
  let text := pyStrip raw
  match List.lookup uid st.sessions with
  | some s =>
    if s.state = "answering" then
      let answers := s.answers ++ [text]
      if answers.length < s.dynamic_questions.length then
        let s1 : Session := { s with answers := answers }
        { st with sessions := setKey st.sessions uid s1 }
      else
        let s1 : Session := { s with answers := answers, state := "choosing_title" }
        { st with sessions := setKey st.sessions uid s1 }
    else if s.state = "choosing_title" then
      let s1 : Session := { s with custom_title := some text, state := "choosing_depth" }
      { st with sessions := setKey st.sessions uid s1 }
    else if s.state = "entering_comparison" then
      let s1 : Session := { s with comparison_query := some text, state := "in_queue" }
      submitJob { st with sessions := setKey st.sessions uid s1 } uid s1
    else st
  | none =>
    if text.length < 5 then st
    else if 250 < text.length then st
    else { st with sessions := setKey st.sessions uid (newSession text) }

/-- language_callback (bot.py lines 1060-1097).  It checks only that a
session exists; unlike every other callback it has no state guard.  It
records the chosen language, moves to generating_questions, and then calls
the external question generator, whose outcome is the gen parameter
(error () models an exception; ok qs a returned list).  An exception or an
empty list lands in the except branch: dynamic_questions = [], answers = [],
state = choosing_depth. -/
def language_callback (gen : Except Unit (List String)) (st : BotState)
    (uid : Nat) (k : String) : BotState :=
  match List.lookup uid st.sessions with
  | none => st
  | some s =>
    let s1 : Session := { s with language := some k, state := "generating_questions" }
    match gen with
    | Except.ok qs =>
      if qs = [] then
        let s2 : Session := { s1 with dynamic_questions := [], answers := [], state := "choosing_depth" }
        { st with sessions := setKey st.sessions uid s2 }
      else
        let s2 : Session := { s1 with dynamic_questions := qs, state := "answering" }
        { st with sessions := setKey st.sessions uid s2 }
    | Except.error _ =>
      let s2 : Session := { s1 with dynamic_questions := [], answers := [], state := "choosing_depth" }
      { st with sessions := setKey st.sessions uid s2 }

/-- depth_callback (bot.py lines 1100-1117): guarded on state choosing_depth. -/
def depth_callback (st : BotState) (uid : Nat) (k : String) : BotState :=
  match List.lookup uid st.sessions with
  | none => st
  | some s =>
    if s.state = "choosing_depth" then
      let s1 : Session := { s with depth := some k, state := "choosing_style_mode" }
      { st with sessions := setKey st.sessions uid s1 }
    else st

/-- style_mode_callback (bot.py lines 1120-1153): guarded on
choosing_style_mode; preset moves to choosing_template, any other mode
initialises the customisation defaults and moves to choosing_font_size. -/
def style_mode_callback (st : BotState) (uid : Nat) (mode : String) : BotState :=
  match List.lookup uid st.sessions with
  | none => st
  | some s =>
    if s.state = "choosing_style_mode" then
      if mode = "preset" then
        let s1 : Session := { s with custom_mode := some false, state := "choosing_template" }
        { st with sessions := setKey st.sessions uid s1 }
      else
        let s1 : Session :=
          { s with custom_mode := some true,
                   custom_font_size_key := some "medium", custom_font_key := some "traditional",
                   custom_color_key := some "royal_blue", custom_line_height := some "normal",
                   custom_page_margin := some "medium", custom_header_style := some "colored",
                   custom_show_header_footer := some "yes", state := "choosing_font_size" }
        { st with sessions := setKey st.sessions uid s1 }
    else st

/-- template_callback (bot.py lines 1332-1348): guarded on choosing_template;
records the template, moves to in_queue and submits the job. -/
def template_callback (st : BotState) (uid : Nat) (tpl : String) : BotState :=
  match List.lookup uid st.sessions with
  | none => st
  | some s =>
    if s.state = "choosing_template" then
      let s1 : Session := { s with template := some tpl, custom_mode := some false, state := "in_queue" }
      submitJob { st with sessions := setKey st.sessions uid s1 } uid s1
    else st

/-- font_size_callback (bot.py lines 1156-1173): guarded on choosing_font_size. -/
def font_size_callback (st : BotState) (uid : Nat) (k : String) : BotState :=
  match List.lookup uid st.sessions with
  | none => st
  | some s =>
    if s.state = "choosing_font_size" then
      let s1 : Session := { s with custom_font_size_key := some k, state := "choosing_font" }
      { st with sessions := setKey st.sessions uid s1 }
    else st

/-- font_callback (bot.py lines 1176-1193): guarded on choosing_font. -/
def font_callback (st : BotState) (uid : Nat) (k : String) : BotState :=
  match List.lookup uid st.sessions with
  | none => st
  | some s =>
    if s.state = "choosing_font" then
      let s1 : Session := { s with custom_font_key := some k, state := "choosing_colors" }
      { st with sessions := setKey st.sessions uid s1 }
    else st

/-- colors_callback (bot.py lines 1196-1213): guarded on choosing_colors. -/
def colors_callback (st : BotState) (uid : Nat) (k : String) : BotState :=
  match List.lookup uid st.sessions with
  | none => st
  | some s =>
    if s.state = "choosing_colors" then
      let s1 : Session := { s with custom_color_key := some k, state := "choosing_line_height" }
      { st with sessions := setKey st.sessions uid s1 }
    else st

/-- line_height_callback (bot.py lines 1216-1233): guarded on choosing_line_height. -/
def line_height_callback (st : BotState) (uid : Nat) (k : String) : BotState :=
  match List.lookup uid st.sessions with
  | none => st
  | some s =>
    if s.state = "choosing_line_height" then
      let s1 : Session := { s with custom_line_height := some k, state := "choosing_page_margin" }
      { st with sessions := setKey st.sessions uid s1 }
    else st

/-- page_margin_callback (bot.py lines 1236-1253): guarded on choosing_page_margin. -/
def page_margin_callback (st : BotState) (uid : Nat) (k : String) : BotState :=
  match List.lookup uid st.sessions with
  | none => st
  | some s =>
    if s.state = "choosing_page_margin" then
      let s1 : Session := { s with custom_page_margin := some k, state := "choosing_header_style" }
      { st with sessions := setKey st.sessions uid s1 }
    else st

/-- header_style_callback (bot.py lines 1256-1272): guarded on choosing_header_style. -/
def header_style_callback (st : BotState) (uid : Nat) (k : String) : BotState :=
  match List.lookup uid st.sessions with
  | none => st
  | some s =>
    if s.state = "choosing_header_style" then
      let s1 : Session := { s with custom_header_style := some k, state := "choosing_show_header" }
      { st with sessions := setKey st.sessions uid s1 }
    else st

/-- show_header_callback (bot.py lines 1275-1292): guarded on choosing_show_header. -/
def show_header_callback (st : BotState) (uid : Nat) (k : String) : BotState :=
  match List.lookup uid st.sessions with
  | none => st
  | some s =>
    if s.state = "choosing_show_header" then
      let s1 : Session := { s with custom_show_header_footer := some k, state := "asking_comparison" }
      { st with sessions := setKey st.sessions uid s1 }
    else st

/-- comp_yes_callback (bot.py lines 1295-1312): guarded on asking_comparison. -/
def comp_yes_callback (st : BotState) (uid : Nat) : BotState :=
  match List.lookup uid st.sessions with
  | none => st
  | some s =>
    if s.state = "asking_comparison" then
      let s1 : Session := { s with state := "entering_comparison" }
      { st with sessions := setKey st.sessions uid s1 }
    else st

/-- comp_no_callback (bot.py lines 1315-1329): guarded on asking_comparison;
pops comparison_query, moves to in_queue and submits the job. -/
def comp_no_callback (st : BotState) (uid : Nat) : BotState :=
  match List.lookup uid st.sessions with
  | none => st
  | some s =>
    if s.state = "asking_comparison" then
      let s1 : Session := { s with comparison_query := none, state := "in_queue" }
      submitJob { st with sessions := setKey st.sessions uid s1 } uid s1
    else st

/-- title_auto_callback (bot.py lines 1043-1057): guarded on choosing_title;
pops custom_title and moves to choosing_depth. -/
def title_auto_callback (st : BotState) (uid : Nat) : BotState :=
  match List.lookup uid st.sessions with
  | none => st
  | some s =>
    if s.state = "choosing_title" then
      let s1 : Session := { s with custom_title := none, state := "choosing_depth" }
      { st with sessions := setKey st.sessions uid s1 }
    else st

/-- The discrete-choice actions of the dialog surface, one constructor per
CallbackQueryHandler pattern registered in main. -/
inductive Choice where
  | lang (k : String)
  | depth (k : String)
  | styleMode (k : String)
  | template (k : String)
  | fontSize (k : String)
  | font (k : String)
  | colors (k : String)
  | lineHeight (k : String)
  | pageMargin (k : String)
  | headerStyle (k : String)
  | showHeader (k : String)
  | compYes
  | compNo
  | titleAuto
deriving DecidableEq

/-- The session state whose keyboard generates each kind of button: the
expected state the action was generated for. -/
def expectedState : Choice → String
  | Choice.lang _ => "choosing_lang"
  | Choice.depth _ => "choosing_depth"
  | Choice.styleMode _ => "choosing_style_mode"
  | Choice.template _ => "choosing_template"
  | Choice.fontSize _ => "choosing_font_size"
  | Choice.font _ => "choosing_font"
  | Choice.colors _ => "choosing_colors"
  | Choice.lineHeight _ => "choosing_line_height"
  | Choice.pageMargin _ => "choosing_page_margin"
  | Choice.headerStyle _ => "choosing_header_style"
  | Choice.showHeader _ => "choosing_show_header"
  | Choice.compYes => "asking_comparison"
  | Choice.compNo => "asking_comparison"
  | Choice.titleAuto => "choosing_title"

def isLangChoice : Choice → Bool
  | Choice.lang _ => true
  | _ => false

/-- Dispatch a discrete-choice action to its handler, as the
CallbackQueryHandler registrations in main do. -/
def applyChoice (gen : Except Unit (List String)) (st : BotState) (uid : Nat) :
    Choice → BotState
  | Choice.lang k => language_callback gen st uid k
  | Choice.depth k => depth_callback st uid k
  | Choice.styleMode k => style_mode_callback st uid k
  | Choice.template k => template_callback st uid k
  | Choice.fontSize k => font_size_callback st uid k
  | Choice.font k => font_callback st uid k
  | Choice.colors k => colors_callback st uid k
  | Choice.lineHeight k => line_height_callback st uid k
  | Choice.pageMargin k => page_margin_callback st uid k
  | Choice.headerStyle k => header_style_callback st uid k
  | Choice.showHeader k => show_header_callback st uid k
  | Choice.compYes => comp_yes_callback st uid
  | Choice.compNo => comp_no_callback st uid
  | Choice.titleAuto => title_auto_callback st uid

/-- A discrete-choice action is stale for a client when no session exists or
the live session state differs from the state the action was generated for. -/
def staleFor (st : BotState) (uid : Nat) (c : Choice) : Prop :=
  ∀ s, List.lookup uid st.sessions = some s → s.state ≠ expectedState c

/-- The parsed model object of generate_report; only the title is read after
rendering (bot.py line 408). -/
structure DynamicReport where
  title : String
deriving DecidableEq

/-- The retry loop of generate_report (bot.py lines 396-405), unrolled for
range(3): the n-th llm.invoke plus parser.parse attempt is the oracle value
f n; a non-final failure is swallowed and retried, and on attempt == 2 the
error is re-raised. -/
def attemptLoop (f : Nat → Except String DynamicReport) : Except String DynamicReport :=
  match f 0 with
  | Except.ok r => Except.ok r
  | Except.error _ =>
    match f 1 with
    | Except.ok r => Except.ok r
    | Except.error _ => f 2

/-- How many generation attempts the loop performs before stopping. -/
def attemptsUsed (f : Nat → Except String DynamicReport) : Nat :=
  match f 0 with
  | Except.ok _ => 1
  | Except.error _ =>
    match f 1 with
    | Except.ok _ => 2
    | Except.error _ => 3

/-- generate_report (bot.py lines 391-411): run the retry loop, then render
the report to PDF (render models render_html plus write_pdf, which may also
raise); any escaping exception is caught by the outer handler, which returns
None together with the error text. -/
def generate_report (f : Nat → Except String DynamicReport)
    (render : DynamicReport → Except String (List Nat)) : Option (List Nat) × String :=
  match attemptLoop f with
  | Except.error e => (none, e)
  | Except.ok r =>
    match render r with
    | Except.error e => (none, e)
    | Except.ok pdf => (some pdf, r.title)

/-- Dict-style insertion into the active_jobs key set
(active_jobs[user_id] = True). -/
def insertJob (l : List Nat) (u : Nat) : List Nat :=
  if u ∈ l then l else l ++ [u]

/-- The outcome of the body of process_one for one job, covering every exit
path of the try block (bot.py lines 59-102): genResult is what
generate_report returned; sendDocFails models the Notifier send_document
call raising; sendMsgFails models the Notifier send_message calls raising
(both in the else branch and in the except branch); unexpectedRaise models
any other exception escaping the body.  The delete_message failure is
swallowed inside the body (lines 83-86) and never escapes. -/
def process_one (st : BotState) (uid : Nat)
    (genResult : Option (List Nat) × String)
    (sendDocFails sendMsgFails unexpectedRaise : Bool) : BotState × Except Unit Bool :=
  let st1 : BotState :=
    { st with activeJobs := insertJob st.activeJobs uid,
              positions := decPositive st.positions }
  let body : Except Unit Bool :=
    if unexpectedRaise then Except.error ()
    else
      match genResult.1 with
      | some _ => if sendDocFails then Except.error () else Except.ok true
      | none => if sendMsgFails then Except.error () else Except.ok false
  let handled : Except Unit Bool :=
    match body with
    | Except.ok delivered => Except.ok delivered
    | Except.error _ => if sendMsgFails then Except.error () else Except.ok false
  let stFin : BotState :=
    { st1 with activeJobs := st1.activeJobs.filter (fun u => u ≠ uid),
               positions := eraseKey st1.positions uid,
               sessions := eraseKey st1.sessions uid }
  (stFin, handled)

/-!
The worker pool as a labelled transition system.  The dispatcher loop
(bot.py lines 108-112) repeatedly takes the head of report_queue and creates
an independent task running process_one; each task first blocks on the
shared asyncio.Semaphore (line 54).  asyncio.Queue wakes getters in FIFO
order, create_task schedules tasks in creation order, and asyncio.Semaphore
serves its waiters in FIFO order, so the model keeps both the transport
queue and the semaphore waiter list as FIFO lists.  The ghost fields
submitted and dispatched record the order of submissions and of semaphore
acquisitions.
-/
structure SysState where
  submitted : List Nat
  queued : List Nat
  waiting : List Nat
  running : List Nat
  dispatched : List Nat
  avail : Nat
  positions : List (Nat × Nat)
deriving DecidableEq

/-- The state right after post_init: empty queue, empty bookkeeping, and a
fresh semaphore with MAX_CONCURRENT permits. -/
def initState : SysState :=
  { submitted := [], queued := [], waiting := [], running := [],
    dispatched := [], avail := MAX_CONCURRENT, positions := [] }

/-- A submission (template_callback line 1345-1348, comp_no_callback,
entering_comparison): record position qsize + 1 and put the job. -/
def enqueueF (s : SysState) (j : Nat) : SysState :=
  { s with submitted := s.submitted ++ [j],
           queued := s.queued ++ [j],
           positions := setKey s.positions j (s.queued.length + 1) }

/-- One iteration of the dispatcher loop: report_queue.get() returns the
head, and the created task joins the semaphore waiter list. -/
def dispatchF (s : SysState) (j : Nat) (rest : List Nat) : SysState :=
  { s with queued := rest, waiting := s.waiting ++ [j] }

/-- A semaphore grant: the longest-waiting task acquires a permit, enters
the guarded section, and runs the position-decrement loop. -/
def grantF (s : SysState) (j : Nat) (rest : List Nat) : SysState :=
  { s with waiting := rest,
           running := s.running ++ [j],
           dispatched := s.dispatched ++ [j],
           avail := s.avail - 1,
           positions := decPositive s.positions }

/-- A job finishes (any exit path): the finally block removes the position
entry and leaving the async-with block releases the permit. -/
def finishF (s : SysState) (j : Nat) : SysState :=
  { s with running := s.running.erase j,
           avail := s.avail + 1,
           positions := eraseKey s.positions j }

inductive Step : SysState → SysState → Prop where
  | enqueue (s : SysState) (j : Nat) (h : j ∉ s.submitted) : Step s (enqueueF s j)
  | dispatch (s : SysState) (j : Nat) (rest : List Nat) (h : s.queued = j :: rest) :
      Step s (dispatchF s j rest)
  | grant (s : SysState) (j : Nat) (rest : List Nat) (h : s.waiting = j :: rest)
      (ha : 0 < s.avail) : Step s (grantF s j rest)
  | finish (s : SysState) (j : Nat) (h : j ∈ s.running) : Step s (finishF s j)

inductive Reachable : SysState → Prop where
  | init : Reachable initState
  | step {s s' : SysState} : Reachable s → Step s s' → Reachable s'

/-!
Python reference semantics for the snapshot taken at submission time.
report_queue.put receives session.copy() (bot.py lines 1021, 1329, 1348),
and dict.copy() is a shallow copy: the new dict has its own key table but
its values are the same object references.  PyVal distinguishes immutable
string values from references to heap-allocated lists, and Heap gives each
list reference its current contents.
-/
inductive PyVal where
  | str (s : String)
  | listRef (r : Nat)
deriving DecidableEq

abbrev PyDict := List (String × PyVal)

structure Heap where
  lists : Nat → List String

/-- dict.copy(): a new dict with the same key-value pairs; list-valued
entries still point at the same heap cell. -/
def dictCopy (d : PyDict) : PyDict := d

/-- Python dict assignment on string keys (a top-level session mutation such
as session[key] = value). -/
def dictSet : PyDict → String → PyVal → PyDict
  | [], k, v => [(k, v)]
  | p :: t, k, v => if p.1 = k then (k, v) :: t else p :: dictSet t k v

/-- In-place list append through a reference
(session.setdefault(...).append(...) at bot.py line 985-987). -/
def listAppend (h : Heap) (r : Nat) (x : String) : Heap :=
  Heap.mk (fun i => if i = r then h.lists i ++ [x] else h.lists i)

/-- The dict key under which a session stores its answers list. -/
def answersKey : String := "answers"

/-- Read the answers recorded in a session dict through the heap. -/
def readAnswers (h : Heap) (d : PyDict) : List String :=
  match List.lookup answersKey d with
  | some (PyVal.listRef r) => h.lists r
  | _ => []

/-!
Theorems for the claims, in claim order.
-/

/-- Claim C1: cleanup is unconditional.  Whatever the outcome of a submitted
job — successful delivery, a generation error surfaced to the client, a
failing Notifier delivery call, or any other exception raised while the job
runs — after process_one finishes, the session-store entry, the
queue-position entry and the active-jobs entry of that client are all
absent: the finally block at bot.py lines 103-106 runs on every exit path
of the try block, including when the except-branch send_message itself
raises. -/
theorem cleanup_unconditional (st : BotState) (uid : Nat)
    (genResult : Option (List Nat) × String) (sendDocFails sendMsgFails unexpectedRaise : Bool) :
    List.lookup uid (process_one st uid genResult sendDocFails sendMsgFails unexpectedRaise).1.sessions = none ∧
    List.lookup uid (process_one st uid genResult sendDocFails sendMsgFails unexpectedRaise).1.positions = none ∧
    uid ∉ (process_one st uid genResult sendDocFails sendMsgFails unexpectedRaise).1.activeJobs := by
  refine ⟨?_, ?_, ?_⟩
  · simp [process_one, lookup_eraseKey]
  · simp [process_one, lookup_eraseKey]
  · simp [process_one, List.mem_filter]

/-- Claim C8: the generation-and-parse step runs at most 3 times; a success
stops the loop and yields exactly one artifact; if all three attempts fail,
generate_report returns no artifact together with the error of the third
attempt and retries no further. -/
theorem retry_policy (f : Nat → Except String DynamicReport)
    (render : DynamicReport → Except String (List Nat)) :
    attemptsUsed f ≤ 3 ∧
    (∀ r, f 0 = Except.ok r → attemptLoop f = Except.ok r ∧ attemptsUsed f = 1) ∧
    (∀ e r, f 0 = Except.error e → f 1 = Except.ok r →
      attemptLoop f = Except.ok r ∧ attemptsUsed f = 2) ∧
    (∀ e0 e1 r, f 0 = Except.error e0 → f 1 = Except.error e1 → f 2 = Except.ok r →
      attemptLoop f = Except.ok r ∧ attemptsUsed f = 3) ∧
    (∀ r pdf, attemptLoop f = Except.ok r → render r = Except.ok pdf →
      generate_report f render = (some pdf, r.title)) ∧
    (∀ e0 e1 e2, f 0 = Except.error e0 → f 1 = Except.error e1 → f 2 = Except.error e2 →
      generate_report f render = (none, e2)) := by
  refine ⟨?_, ?_, ?_, ?_, ?_, ?_⟩
  · cases h0 : f 0 with
    | ok r => simp [attemptsUsed, h0]
    | error e =>
      cases h1 : f 1 with
      | ok r => simp [attemptsUsed, h0, h1]
      | error e1 => simp [attemptsUsed, h0, h1]
  · intro r h0
    simp [attemptLoop, attemptsUsed, h0]
  · intro e r h0 h1
    simp [attemptLoop, attemptsUsed, h0, h1]
  · intro e0 e1 r h0 h1 h2
    simp [attemptLoop, attemptsUsed, h0, h1, h2]
  · intro r pdf hloop hrender
    simp [generate_report, hloop, hrender]
  · intro e0 e1 e2 h0 h1 h2
    simp [generate_report, attemptLoop, h0, h1, h2]

def parseErr : String := "structural parse failure"

def w8report : DynamicReport := { title := "Solar Energy" }

/-- The spec scenario: generation fails twice, then succeeds. -/
def w8f : Nat → Except String DynamicReport :=
  fun n => if n ≤ 1 then Except.error parseErr else Except.ok w8report

def w8render : DynamicReport → Except String (List Nat) :=
  fun _ => Except.ok [37, 80, 68, 70]

/-- Witness for C8 at the spec scenario: two failures then a success yields
the artifact exactly once, on the third and final attempt. -/
theorem retry_policy_witness :
    attemptLoop w8f = Except.ok w8report ∧ attemptsUsed w8f = 3 ∧
    generate_report w8f w8render = (some [37, 80, 68, 70], w8report.title) := by
  have h := retry_policy w8f w8render
  refine ⟨(h.2.2.2.1 parseErr parseErr w8report rfl rfl rfl).1,
          (h.2.2.2.1 parseErr parseErr w8report rfl rfl rfl).2, ?_⟩
  exact h.2.2.2.2.1 w8report [37, 80, 68, 70]
    (h.2.2.2.1 parseErr parseErr w8report rfl rfl rfl).1 rfl

/-- The question generator failed: language_callback reached its except
branch either because generate_dynamic_questions raised or because it
returned an empty list (if not questions: raise). -/
def genFailed : Except Unit (List String) → Prop
  | Except.error _ => True
  | Except.ok qs => qs = []

/-- Claim C9: if the question generator fails (raises or returns an empty
list) while the session is in generating_questions, the session moves
directly to choosing_depth with an empty answers list and an empty
questions list, skipping the answering state; the handler catches the
failure and returns normally, so the coordination loop does not crash. -/
theorem question_fallback (gen : Except Unit (List String)) (st : BotState)
    (uid : Nat) (k : String) (s : Session)
    (hs : List.lookup uid st.sessions = some s) (hg : genFailed gen) :
    List.lookup uid (language_callback gen st uid k).sessions =
      some ({ s with language := some k, dynamic_questions := [], answers := [],
                     state := "choosing_depth" }) := by
  cases gen with
  | error e => simp [language_callback, hs, lookup_setKey]
  | ok qs =>
    have hq : qs = [] := hg
    subst hq
    simp [language_callback, hs, lookup_setKey]

def w9topic : String := "renewable energy in Jordan"

def w9lang : String := "ar"

def w9sess : Session := newSession w9topic

def w9st : BotState := { sessions := [(1, w9sess)] }

/-- Witness for C9: a concrete session whose question generation raises. -/
theorem question_fallback_witness :
    List.lookup 1 (language_callback (Except.error ()) w9st 1 w9lang).sessions =
      some ({ w9sess with language := some w9lang, dynamic_questions := [],
                          answers := [], state := "choosing_depth" }) :=
  question_fallback (Except.error ()) w9st 1 w9lang w9sess rfl trivial

/-- Claim C10: for a free-text message from a client with no session, a new
session with topic the stripped text and state choosing_lang is created if
and only if the stripped text has length at least 5 and at most 250;
otherwise the client only receives a rejection message and the state is
unchanged. -/
theorem topic_gate (st : BotState) (uid : Nat) (raw : String)
    (hnone : List.lookup uid st.sessions = none) :
    (5 ≤ (pyStrip raw).length → (pyStrip raw).length ≤ 250 →
      List.lookup uid (handle_message st uid raw).sessions = some (newSession (pyStrip raw))) ∧
    ((pyStrip raw).length < 5 ∨ 250 < (pyStrip raw).length →
      handle_message st uid raw = st) := by
  constructor
  · intro h5 h250
    have hn5 : ¬ (pyStrip raw).length < 5 := by omega
    have hn250 : ¬ 250 < (pyStrip raw).length := by omega
    simp [handle_message, hnone, hn5, hn250, lookup_setKey]
  · intro h
    rcases h with h | h
    · simp [handle_message, hnone, h]
    · have hn5 : ¬ (pyStrip raw).length < 5 := by omega
      simp [handle_message, hnone, hn5, h]

def w10raw : String := "  solar power  "

/-- Witness for C10: a topic with surrounding whitespace whose stripped
length 11 is admitted, creating a session in state choosing_lang. -/
theorem topic_gate_witness :
    List.lookup 1 (handle_message emptyBot 1 w10raw).sessions =
      some (newSession (pyStrip w10raw)) ∧
    (pyStrip w10raw).length = 11 :=
  ⟨(topic_gate emptyBot 1 w10raw rfl).1 (by decide) (by decide), by decide⟩

def c2langEn : String := "en"

def c2sess : Session :=
  { topic := "graph databases", state := "choosing_template", language := some "ar" }

def c2st : BotState := { sessions := [(7, c2sess)] }

/-- Counterexample to claim C2: the language button was generated for state
choosing_lang, but language_callback (bot.py lines 1060-1097) has no state
guard — only a session-existence check — so pressing a stale language
button while the session is in choosing_template mutates the session (its
language and state change). -/
theorem stale_language_counterexample :
    c2sess.state ≠ expectedState (Choice.lang c2langEn) ∧
    List.lookup 7 c2st.sessions = some c2sess ∧
    applyChoice (Except.error ()) c2st 7 (Choice.lang c2langEn) ≠ c2st := by
  refine ⟨by decide, by decide, by decide⟩

/-- Claim C2 as amended: every discrete-choice handler except the language
handler rejects without any mutation when no session exists or when the
session state differs from the state the button was generated for; the
language handler checks only that a session exists, and rejects without
mutation in that case. -/
theorem stale_choice_guard :
    (∀ (gen : Except Unit (List String)) (st : BotState) (uid : Nat) (c : Choice),
      isLangChoice c = false → staleFor st uid c → applyChoice gen st uid c = st) ∧
    (∀ (gen : Except Unit (List String)) (st : BotState) (uid : Nat) (k : String),
      List.lookup uid st.sessions = none → applyChoice gen st uid (Choice.lang k) = st) := by
  constructor
  · intro gen st uid c hl hstale
    cases c with
    | lang k => simp [isLangChoice] at hl
    | depth k =>
      cases hlook : List.lookup uid st.sessions with
      | none => simp [applyChoice, depth_callback, hlook]
      | some s =>
        have hne := hstale s hlook
        simp [expectedState] at hne
        simp [applyChoice, depth_callback, hlook, hne]
    | styleMode k =>
      cases hlook : List.lookup uid st.sessions with
      | none => simp [applyChoice, style_mode_callback, hlook]
      | some s =>
        have hne := hstale s hlook
        simp [expectedState] at hne
        simp [applyChoice, style_mode_callback, hlook, hne]
    | template k =>
      cases hlook : List.lookup uid st.sessions with
      | none => simp [applyChoice, template_callback, hlook]
      | some s =>
        have hne := hstale s hlook
        simp [expectedState] at hne
        simp [applyChoice, template_callback, hlook, hne]
    | fontSize k =>
      cases hlook : List.lookup uid st.sessions with
      | none => simp [applyChoice, font_size_callback, hlook]
      | some s =>
        have hne := hstale s hlook
        simp [expectedState] at hne
        simp [applyChoice, font_size_callback, hlook, hne]
    | font k =>
      cases hlook : List.lookup uid st.sessions with
      | none => simp [applyChoice, font_callback, hlook]
      | some s =>
        have hne := hstale s hlook
        simp [expectedState] at hne
        simp [applyChoice, font_callback, hlook, hne]
    | colors k =>
      cases hlook : List.lookup uid st.sessions with
      | none => simp [applyChoice, colors_callback, hlook]
      | some s =>
        have hne := hstale s hlook
        simp [expectedState] at hne
        simp [applyChoice, colors_callback, hlook, hne]
    | lineHeight k =>
      cases hlook : List.lookup uid st.sessions with
      | none => simp [applyChoice, line_height_callback, hlook]
      | some s =>
        have hne := hstale s hlook
        simp [expectedState] at hne
        simp [applyChoice, line_height_callback, hlook, hne]
    | pageMargin k =>
      cases hlook : List.lookup uid st.sessions with
      | none => simp [applyChoice, page_margin_callback, hlook]
      | some s =>
        have hne := hstale s hlook
        simp [expectedState] at hne
        simp [applyChoice, page_margin_callback, hlook, hne]
    | headerStyle k =>
      cases hlook : List.lookup uid st.sessions with
      | none => simp [applyChoice, header_style_callback, hlook]
      | some s =>
        have hne := hstale s hlook
        simp [expectedState] at hne
        simp [applyChoice, header_style_callback, hlook, hne]
    | showHeader k =>
      cases hlook : List.lookup uid st.sessions with
      | none => simp [applyChoice, show_header_callback, hlook]
      | some s =>
        have hne := hstale s hlook
        simp [expectedState] at hne
        simp [applyChoice, show_header_callback, hlook, hne]
    | compYes =>
      cases hlook : List.lookup uid st.sessions with
      | none => simp [applyChoice, comp_yes_callback, hlook]
      | some s =>
        have hne := hstale s hlook
        simp [expectedState] at hne
        simp [applyChoice, comp_yes_callback, hlook, hne]
    | compNo =>
      cases hlook : List.lookup uid st.sessions with
      | none => simp [applyChoice, comp_no_callback, hlook]
      | some s =>
        have hne := hstale s hlook
        simp [expectedState] at hne
        simp [applyChoice, comp_no_callback, hlook, hne]
    | titleAuto =>
      cases hlook : List.lookup uid st.sessions with
      | none => simp [applyChoice, title_auto_callback, hlook]
      | some s =>
        have hne := hstale s hlook
        simp [expectedState] at hne
        simp [applyChoice, title_auto_callback, hlook, hne]
  · intro gen st uid k hnone
    simp [applyChoice, language_callback, hnone]

def c2wKey : String := "medium"

def c2wLang : String := "ar"

/-- Witness for the amended C2: a depth press with no live session leaves
the state untouched, and so does a language press with no live session. -/
theorem stale_choice_guard_witness :
    applyChoice (Except.error ()) emptyBot 3 (Choice.depth c2wKey) = emptyBot ∧
    applyChoice (Except.error ()) emptyBot 4 (Choice.lang c2wLang) = emptyBot :=
  ⟨stale_choice_guard.1 (Except.error ()) emptyBot 3 (Choice.depth c2wKey) rfl
      (fun s h => by simp [emptyBot] at h),
   stale_choice_guard.2 (Except.error ()) emptyBot 4 c2wLang rfl⟩

def c3a1 : String := "focus on costs"

def c3a2 : String := "added later"

def c3heap : Heap := Heap.mk (fun i => if i = 0 then [c3a1] else [])

def c3session : PyDict := [(answersKey, PyVal.listRef 0)]

/-- Counterexample to claim C3: the snapshot put on the queue is
session.copy(), a shallow copy, so the answers list is shared by reference;
an in-place append to the live session answers list after submission also
changes the configuration already captured in the job. -/
theorem snapshot_counterexample :
    readAnswers c3heap (dictCopy c3session) = [c3a1] ∧
    readAnswers (listAppend c3heap 0 c3a2) (dictCopy c3session) = [c3a1, c3a2] := by
  constructor <;> rfl

/-- Claim C3 as amended: the job holds a shallow copy of the session dict —
the key table is copied, so the snapshot agrees with the live session at
submission time and later top-level key assignments on the live dict
(which produce a new table and leave the heap untouched) cannot alter it;
but a list-valued entry such as answers is shared by reference, so an
in-place append through the live session would also appear in the captured
configuration. -/
theorem snapshot_shallow (h : Heap) (d : PyDict) (r : Nat) (x : String) :
    readAnswers h (dictCopy d) = readAnswers h d ∧
    (List.lookup answersKey d = some (PyVal.listRef r) →
      readAnswers (listAppend h r x) (dictCopy d) = readAnswers h d ++ [x]) := by
  refine ⟨rfl, ?_⟩
  intro hk
  simp [readAnswers, dictCopy, hk, listAppend]

/-- Witness for the amended C3 at the concrete heap of the counterexample. -/
theorem snapshot_shallow_witness :
    readAnswers (listAppend c3heap 0 c3a2) (dictCopy c3session) =
      readAnswers c3heap c3session ++ [c3a2] :=
  (snapshot_shallow c3heap c3session 0 c3a2).2 rfl

def c4tpl : String := "emerald"

def c4sess : Session :=
  { topic := "wind power", state := "choosing_template",
    language := some "ar", depth := some "medium" }

def c4queue : List (Nat × Session) := (List.range 50).map (fun i => (100 + i, c4sess))

def c4st : BotState := { sessions := [(9, c4sess)], queueItems := c4queue }

/-- Counterexample to claim C4: report_queue is an asyncio.Queue created
with no maxsize (unbounded); with 50 items already waiting, a further
submission through template_callback is not rejected with QueueFull — it is
enqueued as item 51 and the client is recorded at position 51. -/
theorem queue_full_counterexample :
    c4st.queueItems.length = 50 ∧
    (template_callback c4st 9 c4tpl).queueItems.length = 51 ∧
    List.lookup 9 (template_callback c4st 9 c4tpl).positions = some 51 ∧
    queueMaxsize = 0 := by
  refine ⟨by simp [c4st, c4queue], ?_, ?_, rfl⟩
  · simp [template_callback, c4st, c4sess, submitJob, c4queue]
  · simp [template_callback, c4st, c4sess, submitJob, c4queue, lookup_setKey]

/-- Claim C4 as amended: the admission queue is unbounded (asyncio.Queue
with default maxsize 0); every submission is enqueued at the back with
recorded position queue-length + 1, and no QueueFull rejection path
exists. -/
theorem queue_unbounded (st : BotState) (uid : Nat) (s : Session) :
    (submitJob st uid s).queueItems = st.queueItems ++ [(uid, s)] ∧
    (submitJob st uid s).queueItems.length = st.queueItems.length + 1 ∧
    List.lookup uid (submitJob st uid s).positions = some (st.queueItems.length + 1) ∧
    queueMaxsize = 0 := by
  refine ⟨rfl, by simp [submitJob], ?_, rfl⟩
  simp [submitJob, lookup_setKey]

/-- In every reachable state, the free semaphore permits plus the jobs
inside the guarded section account for all MAX_CONCURRENT permits. -/
theorem avail_add_running (s : SysState) (h : Reachable s) :
    s.avail + s.running.length = MAX_CONCURRENT := by
  induction h with
  | init => rfl
  | step hr hstep ih =>
    cases hstep with
    | enqueue j hj => simpa [enqueueF] using ih
    | dispatch j rest hq => simpa [dispatchF] using ih
    | grant j rest hw ha =>
      simp [grantF]
      omega
    | finish j hj =>
      have hlen := List.length_erase_of_mem hj
      have hpos := List.length_pos_of_mem hj
      simp [finishF, hlen]
      omega

/-- Claim C5: bounded concurrency — in every reachable state, at most
MAX_CONCURRENT jobs hold a semaphore permit at once. -/
theorem concurrency_bound (s : SysState) (h : Reachable s) :
    s.running.length ≤ MAX_CONCURRENT := by
  have hinv := avail_add_running s h
  omega

/-- Witness for C5 at a concrete reachable state: one job submitted,
dispatched and granted a permit. -/
theorem concurrency_bound_witness :
    (⟨[1], [], [], [1], [1], 1, [(1, 0)]⟩ : SysState).running.length ≤ MAX_CONCURRENT := by
  apply concurrency_bound
  have r0 : Reachable initState := Reachable.init
  have r1 : Reachable (⟨[1], [1], [], [], [], 2, [(1, 1)]⟩ : SysState) :=
    Reachable.step r0 (Step.enqueue initState 1 (by decide))
  have r2 : Reachable (⟨[1], [], [1], [], [], 2, [(1, 1)]⟩ : SysState) :=
    Reachable.step r1 (Step.dispatch _ 1 [] rfl)
  have r3 : Reachable (⟨[1], [], [], [1], [1], 1, [(1, 0)]⟩ : SysState) :=
    Reachable.step r2 (Step.grant _ 1 [] rfl (by decide))
  exact r3

/-- Claim C6: FIFO dispatch — in every reachable state the submission order
decomposes as the semaphore-acquisition order followed by the still-pending
jobs, so jobs acquire permits in exactly their submission order while
nothing constrains completion order (finish may fire for any running job). -/
theorem fifo_dispatch (s : SysState) (h : Reachable s) :
    s.submitted = s.dispatched ++ (s.waiting ++ s.queued) := by
  induction h with
  | init => rfl
  | step hr hstep ih =>
    cases hstep with
    | enqueue j hj => simp [enqueueF, ih, List.append_assoc]
    | dispatch j rest hq =>
      simp [dispatchF, ih, hq, List.append_assoc]
    | grant j rest hw ha =>
      simp [grantF, ih, hw, List.append_assoc]
    | finish j hj => simpa [finishF] using ih

/-- Witness for C6 at a concrete reachable state with one pending job. -/
theorem fifo_dispatch_witness :
    (⟨[1], [], [1], [], [], 2, [(1, 1)]⟩ : SysState).submitted =
      (⟨[1], [], [1], [], [], 2, [(1, 1)]⟩ : SysState).dispatched ++
        ((⟨[1], [], [1], [], [], 2, [(1, 1)]⟩ : SysState).waiting ++
          (⟨[1], [], [1], [], [], 2, [(1, 1)]⟩ : SysState).queued) := by
  apply fifo_dispatch
  have r0 : Reachable initState := Reachable.init
  have r1 : Reachable (⟨[1], [1], [], [], [], 2, [(1, 1)]⟩ : SysState) :=
    Reachable.step r0 (Step.enqueue initState 1 (by decide))
  exact Reachable.step r1 (Step.dispatch _ 1 [] rfl)

def c7S : SysState :=
  ⟨[1, 2, 3, 4, 5], [], [4, 5], [3], [1, 2, 3], 1, [(3, 0), (4, 0), (5, 0)]⟩

def c7S' : SysState :=
  ⟨[1, 2, 3, 4, 5], [], [5], [3, 4], [1, 2, 3, 4], 0, [(3, 0), (4, 0), (5, 0)]⟩

/-- Counterexample to claim C7: a reachable waiting-to-running transition
(job 4 acquires a permit) at which the recorded waiting client 5 has
position 0 — because positions are computed from report_queue.qsize(),
which does not count jobs already handed to the semaphore — and the
decrement loop guard (if queue_positions[uid] > 0) leaves that entry at 0
instead of decrementing it by exactly one. -/
theorem position_not_decremented_counterexample :
    Reachable c7S ∧ Step c7S c7S' ∧ 5 ∈ c7S.waiting ∧ 5 ∈ c7S'.waiting ∧
    List.lookup 5 c7S.positions = some 0 ∧ List.lookup 5 c7S'.positions = some 0 := by
  refine ⟨?_, ?_, by decide, by decide, by decide, by decide⟩
  · have r0 : Reachable initState := Reachable.init
    have r1 : Reachable (⟨[1], [1], [], [], [], 2, [(1, 1)]⟩ : SysState) :=
      Reachable.step r0 (Step.enqueue initState 1 (by decide))
    have r2 : Reachable (⟨[1], [], [1], [], [], 2, [(1, 1)]⟩ : SysState) :=
      Reachable.step r1 (Step.dispatch _ 1 [] rfl)
    have r3 : Reachable (⟨[1], [], [], [1], [1], 1, [(1, 0)]⟩ : SysState) :=
      Reachable.step r2 (Step.grant _ 1 [] rfl (by decide))
    have r4 : Reachable (⟨[1, 2], [2], [], [1], [1], 1, [(1, 0), (2, 1)]⟩ : SysState) :=
      Reachable.step r3 (Step.enqueue _ 2 (by decide))
    have r5 : Reachable (⟨[1, 2], [], [2], [1], [1], 1, [(1, 0), (2, 1)]⟩ : SysState) :=
      Reachable.step r4 (Step.dispatch _ 2 [] rfl)
    have r6 : Reachable (⟨[1, 2], [], [], [1, 2], [1, 2], 0, [(1, 0), (2, 0)]⟩ : SysState) :=
      Reachable.step r5 (Step.grant _ 2 [] rfl (by decide))
    have r7 : Reachable (⟨[1, 2, 3], [3], [], [1, 2], [1, 2], 0,
        [(1, 0), (2, 0), (3, 1)]⟩ : SysState) :=
      Reachable.step r6 (Step.enqueue _ 3 (by decide))
    have r8 : Reachable (⟨[1, 2, 3], [], [3], [1, 2], [1, 2], 0,
        [(1, 0), (2, 0), (3, 1)]⟩ : SysState) :=
      Reachable.step r7 (Step.dispatch _ 3 [] rfl)
    have r9 : Reachable (⟨[1, 2, 3, 4], [4], [3], [1, 2], [1, 2], 0,
        [(1, 0), (2, 0), (3, 1), (4, 1)]⟩ : SysState) :=
      Reachable.step r8 (Step.enqueue _ 4 (by decide))
    have r10 : Reachable (⟨[1, 2, 3, 4], [], [3, 4], [1, 2], [1, 2], 0,
        [(1, 0), (2, 0), (3, 1), (4, 1)]⟩ : SysState) :=
      Reachable.step r9 (Step.dispatch _ 4 [] rfl)
    have r11 : Reachable (⟨[1, 2, 3, 4, 5], [5], [3, 4], [1, 2], [1, 2], 0,
        [(1, 0), (2, 0), (3, 1), (4, 1), (5, 1)]⟩ : SysState) :=
      Reachable.step r10 (Step.enqueue _ 5 (by decide))
    have r12 : Reachable (⟨[1, 2, 3, 4, 5], [], [3, 4, 5], [1, 2], [1, 2], 0,
        [(1, 0), (2, 0), (3, 1), (4, 1), (5, 1)]⟩ : SysState) :=
      Reachable.step r11 (Step.dispatch _ 5 [] rfl)
    have r13 : Reachable (⟨[1, 2, 3, 4, 5], [], [3, 4, 5], [2], [1, 2], 1,
        [(2, 0), (3, 1), (4, 1), (5, 1)]⟩ : SysState) :=
      Reachable.step r12 (Step.finish _ 1 (by decide))
    have r14 : Reachable (⟨[1, 2, 3, 4, 5], [], [4, 5], [2, 3], [1, 2, 3], 0,
        [(2, 0), (3, 0), (4, 0), (5, 0)]⟩ : SysState) :=
      Reachable.step r13 (Step.grant _ 3 [4, 5] rfl (by decide))
    have r15 : Reachable (⟨[1, 2, 3, 4, 5], [], [4, 5], [3], [1, 2, 3], 1,
        [(3, 0), (4, 0), (5, 0)]⟩ : SysState) :=
      Reachable.step r14 (Step.finish _ 2 (by decide))
    exact r15
  · exact Step.grant c7S 4 [5] rfl (by decide)

/-- Claim C7 as amended: the position is recorded at submission as the
transport-queue length plus one; at each waiting-to-running transition the
decrement loop runs over all recorded entries but only decrements those
that are strictly positive (an entry already at 0 stays at 0, which can
happen to a still-waiting client because qsize does not count jobs already
handed to the semaphore); the entry is removed when that client finishes. -/
theorem position_bookkeeping (s : SysState) (j : Nat) (rest : List Nat) :
    List.lookup j (enqueueF s j).positions = some (s.queued.length + 1) ∧
    (grantF s j rest).positions = decPositive s.positions ∧
    List.lookup j (finishF s j).positions = none := by
  refine ⟨?_, rfl, ?_⟩
  · simp [enqueueF, lookup_setKey]
  · simp [finishF, lookup_eraseKey]

end Repooreto
